import Mathlib

/-!
Verification development for `ladybug/comfort/pmv.py`.

The Python source computes thermal-comfort indices (PMV, PPD, SET) over IEEE
floats; we embed it shallowly over the real numbers `ℝ`, translating each
function of the source one-to-one.  The two `while` loops of `pierce_set`
(the first-step `tcl` sub-iteration and the final Newton solve) carry no
iteration cap in the source, so they are modelled with an explicit fuel
parameter and an `Option` result (`none` = fuel exhausted).  Fanger's `tcl`
loop is capped in the source (`return 1` once the counter exceeds 150, i.e.
after the 151st body execution), which the embedding mirrors with fuel 151.

`ladybug/rootfind.py` (`secant`, `bisect`) is imported by the source but is
not part of the sources available here; those two functions are modelled
from the specification (see their doc comments).
-/

noncomputable section

/-- `saturated_vapor_pressure_torr` (pmv.py line 411): saturated vapor
pressure in Torr at dry-bulb temperature `db_temp` in Celsius. -/
def saturated_vapor_pressure_torr (db_temp : ℝ) : ℝ :=
  Real.exp (18.6686 - 4030.183 / (db_temp + 235.0))

/-- The saturation-pressure expression used to build `pa` inside
`pmv_fanger` (pmv.py line 134): `pa = rh * 10 * exp(16.6536 - 4030.183/(ta+235))`. -/
def fanger_pa_expr (ta : ℝ) : ℝ :=
  Real.exp (16.6536 - 4030.183 / (ta + 235))

/-- `ppd_from_pmv` (pmv.py line 420).  `math.pow(pmv, 4.0)` and
`math.pow(pmv, 2.0)` agree with the real monomials `pmv ^ 4` and `pmv ^ 2`
for every real base (integral exponents), so they are embedded as such. -/
def ppd_from_pmv (pmv : ℝ) : ℝ :=
  100.0 - 95.0 * Real.exp (-0.03353 * pmv ^ 4 - 0.2179 * pmv ^ 2)

/-- State of Fanger's clothed-surface-temperature fixed-point loop
(pmv.py lines 156-172): the two iterates `xf`, `xn` and the convection
coefficient `hc` assigned in the loop body.  (`hc` is unbound in the source
until the body first runs; the initial field value 0 is junk standing for
that unbound name — every execution relevant here runs the body.) -/
structure FangerState where
  xf : ℝ
  xn : ℝ
  hc : ℝ

/-- Natural-convection coefficient `hcn = 2.38 * abs(100*xf - taa)**0.25`
(pmv.py line 163); `math.pow` on the nonnegative base is real `rpow`. -/
def fangerHcn (taa xf : ℝ) : ℝ :=
  2.38 * |100.0 * xf - taa| ^ (0.25 : ℝ)

/-- `hc = hcf if hcf > hcn else hcn` (pmv.py lines 164-167). -/
def fangerHc (hcf taa xf : ℝ) : ℝ :=
  if fangerHcn taa xf < hcf then hcf else fangerHcn taa xf

/-- One body execution of Fanger's `tcl` loop (pmv.py lines 162-168). -/
def fangerStep (hcf taa p2 p3 p4 p5 : ℝ) (s : FangerState) : FangerState :=
  let xf := (s.xf + s.xn) / 2
  ⟨xf,
   (p5 + p4 * fangerHc hcf taa xf - p2 * xf ^ 4) / (100 + p3 * fangerHc hcf taa xf),
   fangerHc hcf taa xf⟩

/-- Fanger's `tcl` loop (pmv.py lines 160-172): `while abs(xn - xf) > eps`
with `eps = 0.00015`; the body runs at most 151 times (`n` is incremented
after each body and the function bails out once `n > 150`), so the loop is
entered with fuel 151 and `none` models the `return 1` escape. -/
def fangerLoop (hcf taa p2 p3 p4 p5 : ℝ) : ℕ → FangerState → Option FangerState
  | 0, _ => none
  | fuel + 1, s =>
    if |s.xn - s.xf| ≤ 0.00015 then some s
    else fangerLoop hcf taa p2 p3 p4 p5 fuel (fangerStep hcf taa p2 p3 p4 p5 s)

/-- `icl = 0.155 * clo` (pmv.py line 136). -/
def fangerIcl (clo : ℝ) : ℝ := 0.155 * clo

/-- Clothing area factor `fcl` (pmv.py lines 140-143). -/
def fangerFcl (clo : ℝ) : ℝ :=
  if fangerIcl clo ≤ 0.078 then 1 + 1.29 * fangerIcl clo
  else 1.05 + 0.645 * fangerIcl clo

/-- Internal heat production `mw = m - w = met*58.15 - wme*58.15`
(pmv.py lines 137-139). -/
def fangerMw (met wme : ℝ) : ℝ := met * 58.15 - wme * 58.15

/-- `p1 = icl * fcl` (pmv.py line 151). -/
def fangerP1 (clo : ℝ) : ℝ := fangerIcl clo * fangerFcl clo

/-- Initial clothed-surface estimate `tcla = taa + (35.5 - ta)/(3.5*icl + 0.1)`
(pmv.py line 149). -/
def fangerTcla (ta clo : ℝ) : ℝ :=
  (ta + 273) + (35.5 - ta) / (3.5 * fangerIcl clo + 0.1)

/-- The `tcl` solve of `pmv_fanger`, assembled from the source's constants
(pmv.py lines 145-172): `hcf = 12.1*sqrt(vel)`, `p2 = p1*3.96`, `p3 = p1*100`,
`p4 = p1*taa`, `p5 = (308.7 - 0.028*mw) + p2*(tra/100)^4`, starting from
`xn = tcla/100`, `xf = tcla/50`.  (The loop does not depend on `rh`.) -/
def fangerTclLoop (ta tr vel met clo wme : ℝ) : Option FangerState :=
  fangerLoop (12.1 * Real.sqrt vel) (ta + 273)
    (fangerP1 clo * 3.96) (fangerP1 clo * 100) (fangerP1 clo * (ta + 273))
    ((308.7 - 0.028 * fangerMw met wme) + fangerP1 clo * 3.96 * ((tr + 273) / 100) ^ 4)
    151 ⟨fangerTcla ta clo / 50, fangerTcla ta clo / 100, 0⟩

/-- Result of `pmv_fanger`: the source is dynamically typed and returns
either the 3-tuple `(pmv, ppd, heat_loss)` or the bare integer `1` on
exceeding the iteration cap (pmv.py line 172), so the return type is the
tagged union of the two shapes. -/
inductive FangerResult where
  | failure (code : ℤ)
  | ok (pmv ppd : ℝ) (heat_loss : List ℝ)

/-- `pmv_fanger` (pmv.py lines 100-199).  The pure precomputations of the
source (lines 134-155) are order-independent, so the heat-loss section is
written after the loop match; when the loop exceeds its cap the source
returns the integer `1` and never reaches the heat-loss section, exactly as
the `failure 1` branch here. -/
def pmv_fanger (ta tr vel rh met clo wme : ℝ) : FangerResult :=
  match fangerTclLoop ta tr vel met clo wme with
  | none => .failure 1
  | some s =>
    let pa := rh * 10 * fanger_pa_expr ta
    let m := met * 58.15
    let mw := fangerMw met wme
    let fcl := fangerFcl clo
    let tra := tr + 273
    let tcl := 100 * s.xn - 273
    let hl1 := 3.05 * 0.001 * (5733 - 6.99 * mw - pa)
    let hl2 := if 58.15 < mw then 0.42 * (mw - 58.15) else 0
    let hl3 := 1.7 * 0.00001 * m * (5867 - pa)
    let hl4 := 0.0014 * m * (34 - ta)
    let hl5 := 3.96 * fcl * (s.xn ^ 4 - (tra / 100) ^ 4)
    let hl6 := fcl * s.hc * (tcl - ta)
    let ts := 0.303 * Real.exp (-0.036 * m) + 0.028
    let pmvVal := ts * (mw - hl1 - hl2 - hl3 - hl4 - hl5 - hl6)
    .ok pmvVal (ppd_from_pmv pmvVal) [hl1, hl2, hl3, hl4, hl5, hl6]

/-- Final values of the evaporative-heat-loss section of the Pierce loop
body (pmv.py lines 340-356), computed from the regulatory sweat evaporation
`ersw`, the maximum evaporative capacity `emax` and the critical wettedness
`wcrit`. -/
structure EvapState where
  prsw : ℝ
  pwet : ℝ
  edif : ℝ
  ersw : ℝ
  esk : ℝ

/-- Evaporative-heat-loss section of the Pierce loop body, translated
statement by statement from pmv.py lines 340-356.  `ersw0` is the value of
`ersw` entering the section (line 335).  The source assigns `esk` at lines
343, 349 and 355 and then once more, unconditionally, at line 356
(`esk = ersw + edif`); the record update at the end is that final
assignment, which in particular supersedes `esk = emax` of line 355. -/
def evapBlock (ersw0 emax wcrit : ℝ) : EvapState :=
  let prsw1 := ersw0 / emax
  let pwet1 := 0.06 + 0.94 * prsw1
  let edif1 := pwet1 * emax - ersw0
  let s2 : EvapState :=
    if wcrit < pwet1 then
      let prsw2 := wcrit / 0.94
      let ersw2 := prsw2 * emax
      let edif2 := 0.06 * (1.0 - prsw2) * emax
      ⟨prsw2, wcrit, edif2, ersw2, ersw2 + edif2⟩
    else ⟨prsw1, pwet1, edif1, ersw0, ersw0 + edif1⟩
  let s3 : EvapState :=
    if emax < 0 then ⟨wcrit, wcrit, 0, 0, emax⟩
    else s2
  { s3 with esk := s3.ersw + s3.edif }

/-- `pressure_in_atmospheres = (101325.0/1000) * 0.009869` (pmv.py lines
256-258). -/
def pressure_in_atmospheres : ℝ := (101325.0 / 1000) * 0.009869

/-- Per-call constants of the Pierce two-node simulation (pmv.py lines
225-277): quantities fixed before the 60-step loop starts. -/
structure PierceConsts where
  ta : ℝ
  tr : ℝ
  vapor_pressure : ℝ
  chc : ℝ
  rcl : ℝ
  facl : ℝ
  icl : ℝ
  LR : ℝ
  wcrit : ℝ
  RM : ℝ
  wme : ℝ

/-- Builds the per-call constants from the inputs, with `av` the already
clamped air velocity (pmv.py lines 225-277).  `math.pow` on the positive
bases is real `rpow`. -/
def pierceConsts (ta tr av rh met clo wme : ℝ) : PierceConsts :=
  { ta := ta, tr := tr,
    vapor_pressure := rh * saturated_vapor_pressure_torr ta / 100,
    chc := max (3.0 * pressure_in_atmospheres ^ (0.53 : ℝ))
               (8.600001 * (av * pressure_in_atmospheres) ^ (0.53 : ℝ)),
    rcl := 0.155 * clo,
    facl := 1.0 + 0.15 * clo,
    icl := if clo ≤ 0 then 1.0 else 0.45,
    LR := 2.2 / pressure_in_atmospheres,
    wcrit := if clo ≤ 0 then 0.38 * av ^ (-0.29 : ℝ) else 0.59 * av ^ (-0.08 : ℝ),
    RM := met * 58.2,
    wme := wme }

/-- Loop-carried state of the Pierce 60-step simulation: every local of the
source that is written in one iteration and read in a later iteration or
after the loop (pmv.py lines 244-359).  `dry`, `pwet` and `emax` are first
assigned inside the loop body; their initial field values 0 are junk
standing for the unbound names (the loop always runs 60 times, so they are
always assigned before being read). -/
structure PierceState where
  temp_skin : ℝ
  temp_core : ℝ
  skin_blood_flow : ℝ
  mshiv : ℝ
  alfa : ℝ
  esk : ℝ
  M : ℝ
  tcl : ℝ
  tcl_old : ℝ
  chr : ℝ
  RA : ℝ
  top : ℝ
  dry : ℝ
  pwet : ℝ
  emax : ℝ

/-- Initial simulation state (pmv.py lines 243-291): neutral set-points,
`chr = 4.7`, the initial `tcl` estimate of line 284, and — line 291 —
`tcl_old = tcl`. -/
def pierceInitState (C : PierceConsts) (met : ℝ) : PierceState :=
  let chr := 4.7
  let ctc := chr + C.chc
  let RA := 1.0 / (C.facl * ctc)
  let top := (chr * C.tr + C.chc * C.ta) / ctc
  let tcl := top + (33.7 - top) / (ctc * (RA + C.rcl))
  { temp_skin := 33.7, temp_core := 36.49, skin_blood_flow := 6.3,
    mshiv := 0.0, alfa := 0.1, esk := 0.1 * met, M := met * 58.2,
    tcl := tcl, tcl_old := tcl, chr := chr, RA := RA, top := top,
    dry := 0, pwet := 0, emax := 0 }

/-- One iteration of the 60-step thermoregulation loop, lines 305-359 of
pmv.py (the part after the flag-guarded `tcl` sub-iteration).  Python's
`(cond) * value` products on lines 319-325 are `if cond then value else 0`.
`tcl`, `tcl_old`, `chr`, `RA` and `top` are not touched by this part of the
body. -/
def pierceStep (C : PierceConsts) (s : PierceState) : PierceState :=
  let dry := (s.temp_skin - s.top) / (s.RA + C.rcl)
  let hfcs := (s.temp_core - s.temp_skin) * (5.28 + 1.163 * s.skin_blood_flow)
  let eres := 0.0023 * s.M * (44.0 - C.vapor_pressure)
  let cres := 0.0014 * s.M * (34.0 - C.ta)
  let scr := s.M - hfcs - eres - cres - C.wme
  let ssk := hfcs - dry - s.esk
  let tcsk := 0.97 * s.alfa * 69.9
  let tccr := 0.97 * (1 - s.alfa) * 69.9
  let dtsk := (ssk * 1.8258) / (tcsk * 60.0)
  let dtcr := scr * 1.8258 / (tccr * 60.0)
  let temp_skin := s.temp_skin + dtsk
  let temp_core := s.temp_core + dtcr
  let TB := s.alfa * temp_skin + (1 - s.alfa) * temp_core
  let sksig := temp_skin - 33.7
  let warms := if 0 < sksig then sksig else 0
  let colds := if 0 < -1.0 * sksig then -1.0 * sksig else 0
  let crsig := temp_core - 36.49
  let warmc := if 0 < crsig then crsig else 0
  let coldc := if 0 < -1.0 * crsig then -1.0 * crsig else 0
  let bdsig := TB - 36.49
  let warmb := if 0 < bdsig then bdsig else 0
  let sbf0 := (6.3 + 120 * warmc) / (1 + 0.5 * colds)
  let sbf1 := if 90.0 < sbf0 then 90.0 else sbf0
  let skin_blood_flow := if sbf1 < 0.5 then 0.5 else sbf1
  let regsw0 := 170 * warmb * Real.exp (warms / 10.7)
  let regsw := if 500.0 < regsw0 then 500.0 else regsw0
  let ersw := 0.68 * regsw
  let rea := 1.0 / (C.LR * C.facl * C.chc)
  let recl := C.rcl / (C.LR * C.icl)
  let emax := (saturated_vapor_pressure_torr temp_skin - C.vapor_pressure) / (rea + recl)
  let eb := evapBlock ersw emax C.wcrit
  let mshiv := 19.4 * colds * coldc
  let M := C.RM + mshiv
  let alfa := 0.0417737 + 0.7451833 / (skin_blood_flow + 0.585417)
  { temp_skin := temp_skin, temp_core := temp_core,
    skin_blood_flow := skin_blood_flow, mshiv := mshiv, alfa := alfa,
    esk := eb.esk, M := M,
    tcl := s.tcl, tcl_old := s.tcl_old, chr := s.chr, RA := s.RA, top := s.top,
    dry := dry, pwet := eb.pwet, emax := emax }

/-- The flag-guarded inner `tcl`/`chr` sub-iteration (pmv.py lines 296-303):
`while abs(tcl - tcl_old) > 0.01`, recomputing `chr`, `ctc`, `RA`, `top`,
`tcl`.  The source puts no cap on this loop, so it is run on fuel; `none`
models running out of fuel.  `math.pow(x, 3.0)` is the real cube. -/
def tclLoopP (C : PierceConsts) : ℕ → PierceState → Option PierceState
  | 0, _ => none
  | fuel + 1, s =>
    if |s.tcl - s.tcl_old| ≤ 0.01 then some s
    else
      let tcl_old := s.tcl
      let chr := 4.0 * 0.000000056697 * ((s.tcl + C.tr) / 2.0 + 273.15) ^ 3 * 0.72
      let ctc := chr + C.chc
      let RA := 1.0 / (C.facl * ctc)
      let top := (chr * C.tr + C.chc * C.ta) / ctc
      let tcl := (RA * s.temp_skin + C.rcl * top) / (RA + C.rcl)
      tclLoopP C fuel
        { s with tcl := tcl, tcl_old := tcl_old, chr := chr, RA := RA, top := top }

/-- The 60-step `for TIM in time` loop of `pierce_set` (pmv.py lines
292-359): on each step, if `flag` is still true the `tcl` sub-iteration
runs first, then `flag` is cleared and the thermoregulation body
(`pierceStep`) runs.  `n` counts the remaining steps; the source enters
with `n = 60` and `flag = True`. -/
def pierceOuter (C : PierceConsts) (tclFuel : ℕ) : ℕ → Bool → PierceState → Option PierceState
  | 0, _, s => some s
  | n + 1, flag, s =>
    match (match flag with
           | true => tclLoopP C tclFuel s
           | false => some s) with
    | none => none
    | some s1 => pierceOuter C tclFuel n false (pierceStep C s1)

/-- The final Newton solve for SET (pmv.py lines 396-406):
`while abs(dx) > .01` with derivative step `delta = .0001`.  The source
puts no cap on this loop, so it is run on fuel.  At a real exit of the
source loop the returned `x` equals the current `x_old`. -/
def newtonLoop (hd_s he_s W pssk hsk tsk : ℝ) : ℕ → ℝ → ℝ → Option ℝ
  | 0, _, _ => none
  | fuel + 1, x_old, dx =>
    if |dx| ≤ 0.01 then some x_old
    else
      let err1 := hsk - hd_s * (tsk - x_old) - W * he_s *
        (pssk - 0.5 * saturated_vapor_pressure_torr x_old)
      let err2 := hsk - hd_s * (tsk - (x_old + 0.0001)) - W * he_s *
        (pssk - 0.5 * saturated_vapor_pressure_torr (x_old + 0.0001))
      let x := x_old - 0.0001 * err1 / (err2 - err1)
      newtonLoop hd_s he_s W pssk hsk tsk fuel x (x - x_old)

/-- Body of `pierce_set` after the velocity clamp of line 227: everything
in pmv.py lines 225-408 depends on the input velocity only through the
clamped `air_velocity`, passed here as `av`.  `fuel` bounds the two
uncapped `while` loops. -/
def pierceAfterClamp (fuel : ℕ) (ta tr av rh met clo wme : ℝ) : Option ℝ :=
  let C := pierceConsts ta tr av rh met clo wme
  match pierceOuter C fuel 60 true (pierceInitState C met) with
  | none => none
  | some s =>
    let hsk := s.dry + s.esk
    let RN := s.M - wme
    let ecomf0 := 0.42 * (RN - 1 * 58.2)
    let _ecomf := if ecomf0 < 0.0 then 0.0 else ecomf0
    let _emax := s.emax * C.wcrit
    let W := s.pwet
    let pssk := saturated_vapor_pressure_torr s.temp_skin
    let chrS := s.chr
    let chcS0 := 5.66 * (met - 0.85) ^ (0.39 : ℝ)
    let chcS := if met < 0.85 then 3.0 else if chcS0 < 3.0 then 3.0 else chcS0
    let ctcs := chcS + chrS
    let rclos := 1.52 / ((met - wme / 58.2) + 0.6944) - 0.1835
    let rcls := 0.155 * rclos
    let facls := 1.0 + 0.25 * rclos
    let fcls := 1.0 / (1.0 + 0.155 * facls * ctcs * rclos)
    let ims := 0.45
    let icls := ims * chcS / ctcs * (1 - fcls) / (chcS / ctcs - fcls * ims)
    let ras := 1.0 / (facls * ctcs)
    let reaS := 1.0 / (C.LR * facls * chcS)
    let reclS := rcls / (C.LR * icls)
    let hd_s := 1.0 / (ras + rcls)
    let he_s := 1.0 / (reaS + reclS)
    newtonLoop hd_s he_s W pssk hsk s.temp_skin fuel (s.temp_skin - hsk / hd_s) 100.0

/-- `pierce_set` (pmv.py lines 202-408).  Line 227 clamps the input
velocity: `air_velocity = max(vel, 0.1)`; nothing else in the function
reads `vel`. -/
def pierce_setF (fuel : ℕ) (ta tr vel rh met clo wme : ℝ) : Option ℝ :=
  pierceAfterClamp fuel ta tr (max vel 0.1) rh met clo wme

/-- Modelled from the spec: the iteration of the Root-Finder's `secant`
(spec 4.1); `ladybug/rootfind.py` is imported by pmv.py but is not among
the available sources.  Iterates
`x = x1 - fn(x1)*(x1 - x0)/(fn(x1) - fn(x0))` until `abs(fn(x)) < tol`,
with `none` standing for the source's `'NaN'` sentinel (undefined secant
step, or iterations exhausted). -/
def secantGo (fn : ℝ → ℝ) (tol : ℝ) : ℕ → ℝ → ℝ → Option ℝ
  | 0, _, _ => none
  | fuel + 1, x0, x1 =>
    if |fn x1| < tol then some x1
    else if fn x1 - fn x0 = 0 then none
    else secantGo fn tol fuel x1 (x1 - fn x1 * (x1 - x0) / (fn x1 - fn x0))

/-- Modelled from the spec: `secant(lower, upper, fn, tolerance)` of the
Root-Finder (spec 4.1) starts from the two bounds as initial guesses and
runs a capped iteration count (cap chosen as 100 here). -/
def secant (lower upper : ℝ) (fn : ℝ → ℝ) (tol : ℝ) : Option ℝ :=
  secantGo fn tol 100 lower upper

/-- Modelled from the spec: the interval-halving iteration of the
Root-Finder's `bisect` (spec 4.1). -/
def bisectGo (fn : ℝ → ℝ) (tol : ℝ) : ℕ → ℝ → ℝ → ℝ
  | 0, a, b => (a + b) / 2
  | fuel + 1, a, b =>
    let m := (a + b) / 2
    if |fn m| < tol then m
    else if fn a * fn m ≤ 0 then bisectGo fn tol fuel a m
    else bisectGo fn tol fuel m b

/-- Modelled from the spec: `bisect(lower, upper, fn, tolerance, fallback)`
of the Root-Finder (spec 4.1) returns the fallback value when the interval
does not bracket a root (same-sign endpoints) and otherwise bisects; it
always returns a number.  pmv.py line 457 calls it without an explicit
fallback; the fallback used by that call is modelled as 0. -/
def bisect (lower upper : ℝ) (fn : ℝ → ℝ) (tol : ℝ) (fallback : ℝ) : ℝ :=
  if 0 < fn lower * fn upper then fallback else bisectGo fn tol 100 lower upper

/-- Result of `pmv_from_ppd`: either the two PMV roots or the
`ValueError` raised for a PPD outside the model's limits (pmv.py lines
465-466). -/
inductive PmvFromPpdResult where
  | ok (pmv_lower pmv_upper : ℝ)
  | domainError

/-- `pmv_from_ppd` (pmv.py lines 432-466): guard `ppd > 5 and ppd < 100`,
then each root is found by `secant` with a `bisect` fallback on the
`'NaN'` sentinel; outside the guard a `ValueError` is raised. -/
def pmv_from_ppd (ppd ppd_error : ℝ) : PmvFromPpdResult :=
  if 5 < ppd ∧ ppd < 100 then
    let fn := fun pmv =>
      (100.0 - 95.0 * Real.exp (-0.03353 * pmv ^ 4 - 0.2179 * pmv ^ 2)) - ppd
    let pmv_lower :=
      match secant (-3) 0 fn ppd_error with
      | none => bisect (-3) 0 fn ppd_error 0
      | some v => v
    let pmv_upper :=
      match secant 0 3 fn ppd_error with
      | none => bisect 0 3 fn ppd_error 0
      | some v => v
    .ok pmv_lower pmv_upper
  else .domainError

/-- The result record of the `pmv` orchestrator (pmv.py lines 90-95). -/
structure ComfortResult where
  pmv : ℝ
  ppd : ℝ
  set : ℝ
  ta_adj : ℝ
  ce : ℝ
  heat_loss : List ℝ

/-- The `pmv` orchestrator (pmv.py lines 11-97).  `pierce_set` is always
computed first; with `vel <= still_air_threshold` the Fanger model is
evaluated at the unmodified inputs with `ta_adj = ta` and `ce = 0`,
otherwise a cooling effect `ce` in `[0, 40]` is solved for with
`secant`/`bisect` (tolerance 0.001) and Fanger is evaluated at
`ta - ce, tr - ce` with the velocity fixed at the threshold.  `none`
propagates fuel exhaustion of the Pierce loops and the source's crash on
unpacking Fanger's integer cap sentinel. -/
def pmvF (fuel : ℕ) (ta tr vel rh met clo wme still_air_threshold : ℝ) :
    Option ComfortResult :=
  match pierce_setF fuel ta tr vel rh met clo wme with
  | none => none
  | some setv =>
    if vel ≤ still_air_threshold then
      match pmv_fanger ta tr vel rh met clo wme with
      | .failure _ => none
      | .ok p q l => some ⟨p, q, setv, ta, 0, l⟩
    else
      let fn := fun ce =>
        setv - (pierce_setF fuel (ta - ce) (tr - ce) still_air_threshold rh met clo wme).getD 0
      let ce :=
        match secant 0 40 fn 0.001 with
        | none => bisect 0 40 fn 0.001 0
        | some v => v
      match pmv_fanger (ta - ce) (tr - ce) still_air_threshold rh met clo wme with
      | .failure _ => none
      | .ok p q l => some ⟨p, q, setv, ta - ce, ce, l⟩

/-- Per-call constants of `pierce_set` for the reference scenario
`ta = 25, tr = 25, vel = 0.1, rh = 50, met = 1.2, clo = 0.5, wme = 0`
(`max 0.1 0.1` is the clamped air velocity as produced by line 227). -/
def pierceDemoConsts : PierceConsts :=
  pierceConsts 25 25 (max 0.1 0.1) 50 1.2 0.5 0

/-- Initial Pierce simulation state for the reference scenario. -/
def pierceDemoInit : PierceState :=
  pierceInitState pierceDemoConsts 1.2

end

/-! Helper lemmas shared by the claim theorems. -/

lemma fangerLoop_succ (hcf taa p2 p3 p4 p5 : ℝ) (n : ℕ) (s : FangerState) :
    fangerLoop hcf taa p2 p3 p4 p5 (n + 1) s =
      if |s.xn - s.xf| ≤ 0.00015 then some s
      else fangerLoop hcf taa p2 p3 p4 p5 n (fangerStep hcf taa p2 p3 p4 p5 s) := rfl

lemma fangerStep_xf (hcf taa p2 p3 p4 p5 : ℝ) (s : FangerState) :
    (fangerStep hcf taa p2 p3 p4 p5 s).xf = (s.xf + s.xn) / 2 := rfl

lemma fangerStep_xn (hcf taa p2 p3 p4 p5 : ℝ) (s : FangerState) :
    (fangerStep hcf taa p2 p3 p4 p5 s).xn =
      (p5 + p4 * fangerHc hcf taa ((s.xf + s.xn) / 2)
        - p2 * ((s.xf + s.xn) / 2) ^ 4) /
      (100 + p3 * fangerHc hcf taa ((s.xf + s.xn) / 2)) := rfl

/-- With `p1 = 0` (so `p2 = p3 = p4 = 0`, the `clo = 0` configuration) the
loop iterate `xn` is pinned at `p5/100` while `xf` only halves its distance
to `xn`; if the remaining gap exceeds `0.00015 * 2 ^ fuel` the loop can
never converge within `fuel` further body executions. -/
lemma fangerLoop_const_none (hcf taa p5 : ℝ) :
    ∀ (fuel : ℕ) (s : FangerState), s.xn = p5 / 100 →
      0.00015 * 2 ^ fuel < s.xf - s.xn →
      fangerLoop hcf taa 0 0 0 p5 fuel s = none := by
  intro fuel
  induction fuel with
  | zero => intro s _ _; rfl
  | succ k ih =>
    intro s hxn hgap
    have h2p : (1 : ℝ) ≤ 2 ^ (k + 1) := one_le_pow₀ (by norm_num)
    have h2s : (2 : ℝ) ^ (k + 1) = 2 * 2 ^ k := by ring
    rw [fangerLoop_succ, if_neg]
    · apply ih
      · rw [fangerStep_xn, hxn]; norm_num
      · have hxf : (fangerStep hcf taa 0 0 0 p5 s).xf = (s.xf + s.xn) / 2 :=
          fangerStep_xf hcf taa 0 0 0 p5 s
        have hxn2 : (fangerStep hcf taa 0 0 0 p5 s).xn = s.xn := by
          rw [fangerStep_xn, hxn]; norm_num
        rw [hxf, hxn2]
        rw [h2s] at hgap
        linarith
    · intro hcon
      rw [abs_sub_le_iff] at hcon
      have := hcon.2
      nlinarith

lemma pierceStep_chr (C : PierceConsts) (s : PierceState) :
    (pierceStep C s).chr = s.chr := rfl

lemma iterate_pierceStep_chr (C : PierceConsts) :
    ∀ (n : ℕ) (s : PierceState), ((pierceStep C)^[n] s).chr = s.chr := by
  intro n
  induction n with
  | zero => intro s; rfl
  | succ k ih =>
    intro s
    rw [Function.iterate_succ_apply, ih, pierceStep_chr]

lemma tclLoopP_succ (C : PierceConsts) (f : ℕ) (s : PierceState) :
    tclLoopP C (f + 1) s =
      if |s.tcl - s.tcl_old| ≤ 0.01 then some s
      else
        tclLoopP C f
          { s with
            tcl := (1.0 / (C.facl * (4.0 * 0.000000056697 *
                      ((s.tcl + C.tr) / 2.0 + 273.15) ^ 3 * 0.72 + C.chc)) * s.temp_skin
                    + C.rcl * ((4.0 * 0.000000056697 *
                        ((s.tcl + C.tr) / 2.0 + 273.15) ^ 3 * 0.72 * C.tr + C.chc * C.ta) /
                      (4.0 * 0.000000056697 *
                        ((s.tcl + C.tr) / 2.0 + 273.15) ^ 3 * 0.72 + C.chc))) /
                   (1.0 / (C.facl * (4.0 * 0.000000056697 *
                      ((s.tcl + C.tr) / 2.0 + 273.15) ^ 3 * 0.72 + C.chc)) + C.rcl),
            tcl_old := s.tcl,
            chr := 4.0 * 0.000000056697 * ((s.tcl + C.tr) / 2.0 + 273.15) ^ 3 * 0.72,
            RA := 1.0 / (C.facl * (4.0 * 0.000000056697 *
                      ((s.tcl + C.tr) / 2.0 + 273.15) ^ 3 * 0.72 + C.chc)),
            top := (4.0 * 0.000000056697 *
                      ((s.tcl + C.tr) / 2.0 + 273.15) ^ 3 * 0.72 * C.tr + C.chc * C.ta) /
                   (4.0 * 0.000000056697 *
                      ((s.tcl + C.tr) / 2.0 + 273.15) ^ 3 * 0.72 + C.chc) } := rfl

/-- The source initializes `tcl_old = tcl` (pmv.py line 291). -/
lemma pierceInitState_tcl_old (C : PierceConsts) (met : ℝ) :
    (pierceInitState C met).tcl_old = (pierceInitState C met).tcl := rfl

/-- Consequence: the guard of the inner sub-iteration is false on entry and
the sub-iteration returns its state unchanged (for any fuel ≥ 1). -/
lemma tclLoopP_init (C : PierceConsts) (f : ℕ) (met : ℝ) :
    tclLoopP C (f + 1) (pierceInitState C met) = some (pierceInitState C met) := by
  have h : (pierceInitState C met).tcl - (pierceInitState C met).tcl_old = 0 := sub_self _
  rw [tclLoopP_succ, h]
  norm_num

lemma pierceOuter_false_succ (C : PierceConsts) (f n : ℕ) (s : PierceState) :
    pierceOuter C f (n + 1) false s = pierceOuter C f n false (pierceStep C s) := rfl

lemma pierceOuter_iterate (C : PierceConsts) (f : ℕ) :
    ∀ (n : ℕ) (s : PierceState),
      pierceOuter C f n false s = some ((pierceStep C)^[n] s) := by
  intro n
  induction n with
  | zero => intro s; rfl
  | succ k ih =>
    intro s
    rw [pierceOuter_false_succ, ih, Function.iterate_succ_apply]

lemma pierceOuter_true_succ (C : PierceConsts) (f n : ℕ) (s : PierceState) :
    pierceOuter C f (n + 1) true s =
      match tclLoopP C f s with
      | none => none
      | some s1 => pierceOuter C f n false (pierceStep C s1) := rfl

/-- The sub-iteration runs before the first of the remaining `n + 1` steps
and never again; starting from the source's initial state it changes
nothing, so the simulation is exactly `n + 1` applications of the step. -/
lemma pierceOuter_init (C : PierceConsts) (f n : ℕ) (met : ℝ) :
    pierceOuter C (f + 1) (n + 1) true (pierceInitState C met) =
      some ((pierceStep C)^[n + 1] (pierceInitState C met)) := by
  rw [pierceOuter_true_succ, tclLoopP_init]
  exact (pierceOuter_iterate C (f + 1) n
    (pierceStep C (pierceInitState C met))).trans
    (by rw [Function.iterate_succ_apply])

/-! The claim theorems. -/

/-- C3 counterexample: the saturation-pressure expression used for `pa`
inside `pmv_fanger` does not equal `saturated_vapor_pressure_torr`; already
at a dry-bulb temperature of 0 °C the two differ (the leading constants are
16.6536 vs 18.6686). -/
theorem fanger_pa_formula_ne_torr :
    fanger_pa_expr 0 ≠ saturated_vapor_pressure_torr 0 := by
  unfold fanger_pa_expr saturated_vapor_pressure_torr
  intro h
  have h2 := Real.exp_injective h
  norm_num at h2

/-- C3 amended: the two formulas share the coefficients 4030.183 and 235
and differ exactly by the constant factor `exp 2.015` (a unit conversion):
for every dry-bulb temperature `t`, the expression used for `pa` inside
`pmv_fanger` equals `exp (-2.015) * saturated_vapor_pressure_torr t`. -/
theorem fanger_pa_formula_proportional (t : ℝ) :
    fanger_pa_expr t = Real.exp (-2.015) * saturated_vapor_pressure_torr t := by
  unfold fanger_pa_expr saturated_vapor_pressure_torr
  rw [← Real.exp_add]
  ring_nf

/-- C8 counterexample: `ppd_from_pmv 0 = 5`, so the value is not strictly
greater than 5 as the claimed range `(5, 100]` requires. -/
theorem ppd_from_pmv_at_zero_not_above_five : ¬ (5 < ppd_from_pmv 0) := by
  unfold ppd_from_pmv
  norm_num [Real.exp_zero]

/-- C8 amended: for every real `pmv`, `ppd_from_pmv pmv` lies in `[5, 100)`:
it is at least 5 (with equality exactly at `pmv = 0`) and strictly less
than 100. -/
theorem ppd_from_pmv_range (x : ℝ) :
    5 ≤ ppd_from_pmv x ∧ ppd_from_pmv x < 100 := by
  unfold ppd_from_pmv
  have hle : Real.exp (-0.03353 * x ^ 4 - 0.2179 * x ^ 2) ≤ 1 := by
    rw [Real.exp_le_one_iff]
    nlinarith [sq_nonneg x, sq_nonneg (x ^ 2)]
  have hpos : 0 < Real.exp (-0.03353 * x ^ 4 - 0.2179 * x ^ 2) := Real.exp_pos _
  constructor <;> nlinarith

/-- C2 counterexample: at `ersw = 0`, `emax = -1 < 0`, `wcrit = 1/2` the
evaporative section forces `pwet = wcrit` but its final `esk` is 0, not
`emax = -1`: the `esk = emax` assignment of pmv.py line 355 is overwritten
by the unconditional `esk = ersw + edif` of line 356. -/
theorem evap_esk_not_forced_to_emax :
    (-1 : ℝ) < 0 ∧ (evapBlock 0 (-1) (1 / 2)).esk ≠ -1 ∧
      (evapBlock 0 (-1) (1 / 2)).pwet = 1 / 2 := by
  refine ⟨by norm_num, ?_, ?_⟩ <;> norm_num [evapBlock]

/-- C2 amended: whenever the maximum evaporative capacity `emax` is
negative, the skin wettedness `pwet` is forced to `wcrit` and the
evaporative heat loss `esk` is forced to 0 (the branch zeroes `ersw` and
`edif`, its `esk = emax` store is dead because the following unconditional
`esk = ersw + edif` recomputes `esk` from the zeroed components). -/
theorem evap_negative_emax_behavior (ersw emax wcrit : ℝ) (h : emax < 0) :
    (evapBlock ersw emax wcrit).esk = 0 ∧ (evapBlock ersw emax wcrit).pwet = wcrit := by
  simp only [evapBlock]
  rw [if_pos h]
  norm_num

/-- Witness for C2 amended at `ersw = 3`, `emax = -2`, `wcrit = 0.7`. -/
theorem evap_negative_emax_behavior_witness :
    (evapBlock 3 (-2) 0.7).esk = 0 ∧ (evapBlock 3 (-2) 0.7).pwet = 0.7 :=
  evap_negative_emax_behavior 3 (-2) 0.7 (by norm_num)

/-- C6: `pmv_from_ppd` raises its domain error exactly when `ppd` lies
outside the open interval `(5, 100)`. -/
theorem pmv_from_ppd_domain_error_iff (ppd err : ℝ) :
    pmv_from_ppd ppd err = PmvFromPpdResult.domainError ↔ ¬ (5 < ppd ∧ ppd < 100) := by
  unfold pmv_from_ppd
  split_ifs with h
  · simp [h]
  · simp [h]

/-- Witness for C6: `pmv_from_ppd 3` and `pmv_from_ppd 150` raise the
domain error, `pmv_from_ppd 50` does not. -/
theorem pmv_from_ppd_domain_error_iff_witness :
    pmv_from_ppd 3 0.001 = PmvFromPpdResult.domainError ∧
    pmv_from_ppd 150 0.001 = PmvFromPpdResult.domainError ∧
    pmv_from_ppd 50 0.001 ≠ PmvFromPpdResult.domainError := by
  refine ⟨(pmv_from_ppd_domain_error_iff 3 0.001).mpr (by norm_num),
    (pmv_from_ppd_domain_error_iff 150 0.001).mpr (by norm_num),
    fun h => (pmv_from_ppd_domain_error_iff 50 0.001).mp h
      (by constructor <;> norm_num)⟩

/-- C9: for any air velocity at most 0.1 the Pierce model computes the
same result as at velocity 0.1, for every fuel: the velocity enters the
model only through `air_velocity = max vel 0.1` (pmv.py line 227). -/
theorem pierce_set_velocity_clamped (fuel : ℕ) (ta tr vel rh met clo wme : ℝ)
    (h : vel ≤ 0.1) :
    pierce_setF fuel ta tr vel rh met clo wme =
      pierce_setF fuel ta tr 0.1 rh met clo wme := by
  unfold pierce_setF
  rw [max_eq_right h, max_self]

/-- Witness for C9 at `vel = 0.05` in the reference scenario. -/
theorem pierce_set_velocity_clamped_witness :
    pierce_setF 100 20 20 0.05 50 1 0.5 0 = pierce_setF 100 20 20 0.1 50 1 0.5 0 :=
  pierce_set_velocity_clamped 100 20 20 0.05 50 1 0.5 0 (by norm_num)

/-- C5, evaluated at the reference scenario `ta = 25, tr = 25, vel = 0.1,
rh = 50, met = 1.2, clo = 0.5, wme = 0`: (1) the source initializes
`tcl_old = tcl`, so the guard `abs(tcl - tcl_old) > 0.01` of the inner
`tcl` sub-iteration is false on entry and the sub-iteration returns the
state unchanged — its `chr`-recomputing body executes zero times, not once;
(2) the outer simulation nevertheless performs exactly 60 applications of
the thermoregulation step, with the sub-iteration reachable only before
the first of them; (3) consequently `chr` still equals its initial
estimate 4.7 after all 60 steps — it is never recomputed. -/
theorem pierce_tcl_subiteration_never_runs :
    pierceDemoInit.tcl_old = pierceDemoInit.tcl ∧
    (∀ f : ℕ, tclLoopP pierceDemoConsts (f + 1) pierceDemoInit = some pierceDemoInit) ∧
    (∀ f : ℕ, pierceOuter pierceDemoConsts (f + 1) 60 true pierceDemoInit =
      some ((pierceStep pierceDemoConsts)^[60] pierceDemoInit)) ∧
    ((pierceStep pierceDemoConsts)^[60] pierceDemoInit).chr = 4.7 := by
  refine ⟨rfl, ?_, ?_, ?_⟩
  · intro f
    exact tclLoopP_init pierceDemoConsts f 1.2
  · intro f
    rw [show (60 : ℕ) = 59 + 1 from rfl]
    exact pierceOuter_init pierceDemoConsts f 59 1.2
  · rw [iterate_pierceStep_chr]
    rfl

/-- C1: whenever Fanger's `tcl` iteration exhausts its cap, `pmv_fanger`
returns the cap sentinel `failure 1` (the source's bare integer `1`, a
value of a different shape than the `(pmv, ppd, heat_loss)` tuple), and
that value is distinct from every `ok` result, so it cannot be mistaken
for a converged answer. -/
theorem pmv_fanger_cap_failure (ta tr vel rh met clo wme : ℝ)
    (h : fangerTclLoop ta tr vel met clo wme = none) :
    pmv_fanger ta tr vel rh met clo wme = FangerResult.failure 1 ∧
    ∀ (p q : ℝ) (l : List ℝ), FangerResult.failure 1 ≠ FangerResult.ok p q l := by
  constructor
  · unfold pmv_fanger
    rw [h]
  · intro p q l hcontra
    exact FangerResult.noConfusion hcontra

/-- Witness for C1: at `ta = -(10 ^ 60), tr = 0, vel = 0, rh = 0, met = 1,
clo = 0, wme = 0` the initial gap `tcla / 100` is astronomically larger
than `0.00015 * 2 ^ 150` and (with `clo = 0`) only halves per iteration,
so the iteration provably exceeds the cap and `pmv_fanger` returns the
failure sentinel. -/
theorem pmv_fanger_cap_failure_witness :
    fangerTclLoop (-(10 ^ 60)) 0 0 1 0 0 = none ∧
    pmv_fanger (-(10 ^ 60)) 0 0 0 1 0 0 = FangerResult.failure 1 := by
  have h : fangerTclLoop (-(10 ^ 60)) 0 0 1 0 0 = none := by
    unfold fangerTclLoop
    have hp1 : fangerP1 0 = 0 := by unfold fangerP1 fangerIcl; ring
    have hmw : fangerMw 1 0 = 58.15 := by unfold fangerMw; norm_num
    rw [hp1, hmw]
    rw [show (151 : ℕ) = 150 + 1 from rfl, fangerLoop_succ,
      if_neg (by norm_num [fangerTcla, fangerIcl, abs_sub_le_iff, lt_abs])]
    have hz : (0 : ℝ) * 3.96 = 0 := by norm_num
    have hz2 : (0 : ℝ) * 100 = 0 := by norm_num
    have hz3 : (0 : ℝ) * (-(10 ^ 60) + 273) = 0 := by norm_num
    rw [hz, hz2, hz3]
    apply fangerLoop_const_none
    · rw [fangerStep_xn]
      norm_num
    · rw [fangerStep_xn, fangerStep_xf]
      norm_num [fangerTcla, fangerIcl]
  exact ⟨h, (pmv_fanger_cap_failure (-(10 ^ 60)) 0 0 0 1 0 0 h).1⟩

/-- With fuel 1 the final Newton loop (initial `dx = 100`) runs out of fuel,
so the Pierce model returns `none`; used to evaluate the orchestrator
concretely without computing the transcendental simulation. -/
lemma newtonLoop_one (hd_s he_s W pssk hsk tsk x : ℝ) :
    newtonLoop hd_s he_s W pssk hsk tsk 1 x 100.0 = none := by
  rw [show (1 : ℕ) = 0 + 1 from rfl]
  norm_num [newtonLoop]

lemma pierceOuter_init_one (C : PierceConsts) (met : ℝ) :
    pierceOuter C 1 60 true (pierceInitState C met) =
      some ((pierceStep C)^[60] (pierceInitState C met)) := by
  rw [show (1 : ℕ) = 0 + 1 from rfl, show (60 : ℕ) = 59 + 1 from rfl]
  exact pierceOuter_init C 0 59 met

lemma pierce_setF_one_none (ta tr vel rh met clo wme : ℝ) :
    pierce_setF 1 ta tr vel rh met clo wme = none := by
  simp only [pierce_setF, pierceAfterClamp, pierceOuter_init_one, newtonLoop_one]

/-- C7: when `vel ≤ still_air_threshold` the orchestrator takes the
still-air branch: its result is exactly the Fanger evaluation at the
actual, unmodified inputs packaged with `ta_adj = ta` and `ce = 0` (and
the always-computed Pierce SET); in particular every returned record has
`ce = 0`, `ta_adj = ta`, and `pmv`/`ppd`/`heat_loss` equal to those of
`pmv_fanger` at the actual inputs. -/
theorem pmv_still_air_branch (fuel : ℕ)
    (ta tr vel rh met clo wme threshold : ℝ) (h : vel ≤ threshold) :
    (pmvF fuel ta tr vel rh met clo wme threshold =
      (pierce_setF fuel ta tr vel rh met clo wme).bind (fun setv =>
        match pmv_fanger ta tr vel rh met clo wme with
        | .failure _ => none
        | .ok p q l => some ⟨p, q, setv, ta, 0, l⟩)) ∧
    ∀ r : ComfortResult, pmvF fuel ta tr vel rh met clo wme threshold = some r →
      r.ce = 0 ∧ r.ta_adj = ta ∧
        pmv_fanger ta tr vel rh met clo wme = FangerResult.ok r.pmv r.ppd r.heat_loss := by
  have hmain : pmvF fuel ta tr vel rh met clo wme threshold =
      (pierce_setF fuel ta tr vel rh met clo wme).bind (fun setv =>
        match pmv_fanger ta tr vel rh met clo wme with
        | .failure _ => none
        | .ok p q l => some ⟨p, q, setv, ta, 0, l⟩) := by
    unfold pmvF
    cases hp : pierce_setF fuel ta tr vel rh met clo wme with
    | none => rfl
    | some setv => simp [h]
  refine ⟨hmain, ?_⟩
  intro r hr
  rw [hmain] at hr
  cases hp : pierce_setF fuel ta tr vel rh met clo wme with
  | none => rw [hp] at hr; simp at hr
  | some setv =>
    rw [hp] at hr
    cases hf : pmv_fanger ta tr vel rh met clo wme with
    | failure c => rw [hf] at hr; simp at hr
    | ok p q l =>
      rw [hf] at hr
      simp only [Option.some_bind, Option.some.injEq] at hr
      subst hr
      exact ⟨rfl, rfl, rfl⟩

/-- Witness for C7 at `vel = 0.05 ≤ 0.1` in the reference scenario with
fuel 1 (where the Pierce model runs out of fuel, so the still-air branch
propagates its `none`). -/
theorem pmv_still_air_branch_witness :
    (0.05 : ℝ) ≤ 0.1 ∧ pmvF 1 25 25 0.05 50 1.2 0.5 0 0.1 = none := by
  refine ⟨by norm_num, ?_⟩
  rw [(pmv_still_air_branch 1 25 25 0.05 50 1.2 0.5 0 0.1 (by norm_num)).1,
    pierce_setF_one_none]
  rfl

/-- C10: whenever `pmv_fanger` returns a result tuple, the second entry of
its heat-loss list (heat loss by sweating) equals
`0.42 * (mw - 58.15)` when the internal heat production
`mw = (met - wme) * 58.15` exceeds 58.15 and `0` otherwise, and that value
is nonnegative. -/
theorem fanger_sweat_heat_loss_nonneg (ta tr vel rh met clo wme p q : ℝ)
    (l : List ℝ) (h : pmv_fanger ta tr vel rh met clo wme = FangerResult.ok p q l) :
    l.get? 1 = some (if 58.15 < (met - wme) * 58.15
      then 0.42 * ((met - wme) * 58.15 - 58.15) else 0) ∧
    (0 : ℝ) ≤ (if 58.15 < (met - wme) * 58.15
      then 0.42 * ((met - wme) * 58.15 - 58.15) else 0) := by
  constructor
  · unfold pmv_fanger at h
    cases hE : fangerTclLoop ta tr vel met clo wme with
    | none => rw [hE] at h; simp at h
    | some s =>
      rw [hE] at h
      simp only [FangerResult.ok.injEq] at h
      obtain ⟨h1, h2, h3⟩ := h
      subst h3
      have hmw : fangerMw met wme = (met - wme) * 58.15 := by unfold fangerMw; ring
      simp [List.get?, hmw]
  · split_ifs with hgt
    · nlinarith
    · exact le_refl 0

/-- Witness for C10: at `ta = 1269.8564/27, tr = 0, vel = 0, rh = 0,
met = 1, clo = 0, wme = 0` Fanger's iteration converges after exactly one
body execution, the model returns a tuple, and (since `mw = 58.15` is not
greater than 58.15) the sweating heat-loss entry is 0. -/
theorem fanger_sweat_heat_loss_nonneg_witness :
    ∃ p q l, pmv_fanger (1269.8564 / 27) 0 0 0 1 0 0 = FangerResult.ok p q l ∧
      l.get? 1 = some 0 := by
  have hS : ∃ S, fangerTclLoop (1269.8564 / 27) 0 0 1 0 0 = some S := by
    unfold fangerTclLoop
    have hp1 : fangerP1 0 = 0 := by unfold fangerP1 fangerIcl; ring
    have hmw : fangerMw 1 0 = 58.15 := by unfold fangerMw; norm_num
    rw [hp1, hmw]
    rw [show (151 : ℕ) = 150 + 1 from rfl, fangerLoop_succ,
      if_neg (by norm_num [fangerTcla, fangerIcl, abs_sub_le_iff, lt_abs])]
    rw [show (150 : ℕ) = 149 + 1 from rfl, fangerLoop_succ,
      if_pos (by
        rw [fangerStep_xn, fangerStep_xf]
        norm_num [fangerTcla, fangerIcl, abs_sub_le_iff])]
    exact ⟨_, rfl⟩
  obtain ⟨S, hS⟩ := hS
  cases hok : pmv_fanger (1269.8564 / 27) 0 0 0 1 0 0 with
  | failure c =>
    exfalso
    unfold pmv_fanger at hok
    rw [hS] at hok
    exact FangerResult.noConfusion hok
  | ok p q l =>
    have hmain := fanger_sweat_heat_loss_nonneg (1269.8564 / 27) 0 0 0 1 0 0 p q l hok
    rw [if_neg (by norm_num)] at hmain
    exact ⟨p, q, l, rfl, hmain.1⟩



